import Mathlib

/-
Shallow embedding of twitchio/models.py (the Payload Mapper of the TwitchIO
repository) and proofs about the specification claims for it.

Modelling conventions:
* A raw JSON payload is a `JVal`; a Python dict is `JVal.obj` with an
  association list of string keys (insertion order preserved, keys unique in
  every payload considered).
* Python exceptions are modelled by `Except Err`; `KeyError k` raised by a
  missing dict key is `Err.keyError k`, `ValueError` is `Err.valueError`,
  `TypeError` is `Err.typeError`, and `AttributeError` is
  `Err.attributeError`.
* The `http` handle threaded through every constructor in the source is a
  passive reference used only by later instance methods; construction itself
  performs no I/O, so the handle is dropped from the embedding and every
  construction function is a pure `Except` computation.
* Machine floats appear only in `BanEvent.version` (`float(data["version"])`);
  no claim depends on binary-float rounding, so `float` is modelled as an
  exact decimal rational.
-/

namespace Twitchio

/-- Python exceptions that the payload-mapper code can raise. -/
inductive Err where
  | keyError (key : String)
  | valueError (msg : String)
  | typeError (msg : String)
  | attributeError (name : String)
deriving DecidableEq

/-- A JSON value as delivered by the Twitch API: the argument type of every
payload constructor in models.py. Objects are association lists in insertion
order. -/
inductive JVal where
  | null
  | bool (b : Bool)
  | num (n : Int)
  | str (s : String)
  | arr (items : List JVal)
  | obj (fields : List (String × JVal))

/-- First binding of a key in an association list, as a Python dict lookup
finds it (keys are unique in every payload considered). -/
def lookupKey : List (String × JVal) → String → Option JVal
  | [], _ => none
  | (k, v) :: rest, key => if k = key then some v else lookupKey rest key

/-- Python subscription `data[k]`: `KeyError k` when the key is absent,
`TypeError` when the value is not a dict. -/
def jget (d : JVal) (k : String) : Except Err JVal :=
  match d with
  | .obj kvs =>
    match lookupKey kvs k with
    | some v => .ok v
    | none => .error (.keyError k)
  | _ => .error (.typeError "object is not subscriptable")

/-- Python `data.get(k)` on a dict: the absent key and a JSON null both give
the Python value None, modelled as `none`. On a non-dict the attribute lookup
of `.get` fails. -/
def dictGet (d : JVal) (k : String) : Except Err (Option JVal) :=
  match d with
  | .obj kvs =>
    .ok (match lookupKey kvs k with
      | none => none
      | some .null => none
      | some v => some v)
  | _ => .error (.attributeError "get")

/-- Python truthiness of a JSON value: None, False, 0, the empty string, the
empty list and the empty dict are falsy. -/
def truthy : JVal → Bool
  | .null => false
  | .bool b => b
  | .num n => if n = 0 then false else true
  | .str s => if s = "" then false else true
  | .arr items => !items.isEmpty
  | .obj kvs => !kvs.isEmpty

/-- Python attribute access `.split` on a payload value: only strings have it. -/
def asStr (v : JVal) : Except Err String :=
  match v with
  | .str s => .ok s
  | _ => .error (.attributeError "split")

/-- Numeric value of a single decimal digit character. -/
def dig (c : Char) : Option Nat :=
  if c.isDigit then some (c.toNat - 48) else none

/-- Value of a two-digit decimal field. -/
def dig2 (a b : Char) : Option Nat := do
  pure ((← dig a) * 10 + (← dig b))

/-- Value of a four-digit decimal field. -/
def dig4 (a b c d : Char) : Option Nat := do
  pure ((← dig a) * 1000 + (← dig b) * 100 + (← dig c) * 10 + (← dig d))

/-- Decimal value of a digit list (most significant first). -/
def digitsToNat (cs : List Char) : Nat :=
  cs.foldl (fun a c => a * 10 + (c.toNat - 48)) 0

/-- Python `int(...)` applied to a payload value: integers pass through,
booleans coerce to 0/1, strings must be an optionally signed decimal literal,
everything else is a TypeError. -/
def pyInt (v : JVal) : Except Err Int :=
  match v with
  | .num n => .ok n
  | .bool b => .ok (if b then 1 else 0)
  | .str s =>
    match parseIntChars s.data with
    | some i => .ok i
    | none => .error (.valueError ("invalid literal for int with base 10: " ++ s))
  | _ => .error (.typeError "int argument must be a string or a number")
where
  /-- Optionally signed run of decimal digits. -/
  parseIntChars : List Char → Option Int
    | '-' :: rest => (digitsRun rest).map (fun n => -(n : Int))
    | '+' :: rest => (digitsRun rest).map (fun n => (n : Int))
    | cs => (digitsRun cs).map (fun n => (n : Int))
  /-- Value of a non-empty all-digit run. -/
  digitsRun (cs : List Char) : Option Nat :=
    if cs ≠ [] ∧ cs.all Char.isDigit then some (digitsToNat cs) else none

/-- Python `float(...)` applied to a payload value, modelled as an exact
decimal rational (no claim in this development depends on binary-float
rounding); exponent forms are not needed by any payload considered. -/
def pyFloat (v : JVal) : Except Err ℚ :=
  match v with
  | .num n => .ok (n : ℚ)
  | .bool b => .ok (if b then 1 else 0)
  | .str s =>
    match parseFloatChars s.data with
    | some q => .ok q
    | none => .error (.valueError ("could not convert string to float: " ++ s))
  | _ => .error (.typeError "float argument must be a string or a number")
where
  /-- Unsigned decimal literal `digits[.digits]`, at least one digit. -/
  unsignedFloat (cs : List Char) : Option ℚ :=
    let intPart := cs.takeWhile Char.isDigit
    match cs.drop intPart.length with
    | [] => if intPart = [] then none else some (digitsToNat intPart : ℚ)
    | '.' :: frac =>
      if frac.all Char.isDigit ∧ (intPart ≠ [] ∨ frac ≠ []) then
        some ((digitsToNat intPart : ℚ) + (digitsToNat frac : ℚ) / ((10 : ℚ) ^ frac.length))
      else none
    | _ => none
  /-- Optionally signed decimal literal. -/
  parseFloatChars : List Char → Option ℚ
    | '-' :: rest => (unsignedFloat rest).map Neg.neg
    | '+' :: rest => unsignedFloat rest
    | cs => unsignedFloat cs

/-- Python `round(a / b)` for an integer `a` and positive integer `b`: true
division followed by `round()` with no digits argument is round half to even
of the exact quotient. At every tier value the claims mention the quotient
is integral and exactly representable, so this coincides with the
binary-float computation of the source. The comparison of the fractional
part of `a / b` against one half is done as `2 * (a mod b)` against `b`. -/
def pyRoundDiv (a b : Int) : Int :=
  let f := Int.fdiv a b
  let r2 := 2 * (a - f * b)
  if r2 < b then f
  else if b < r2 then f + 1
  else if f % 2 = 0 then f else f + 1

/-- Python naive/aware datetime value: the result of timestamp parsing. A
timezone-aware value carries its total UTC offset in microseconds. -/
structure PyDateTime where
  year : Nat
  month : Nat
  day : Nat
  hour : Nat
  minute : Nat
  second : Nat
  microsecond : Nat
  tzOffsetMicros : Option Int
deriving DecidableEq

/-- Leap-year rule of the proleptic Gregorian calendar used by Python
datetime. -/
def isLeap (y : Nat) : Bool :=
  y % 4 = 0 && (y % 100 ≠ 0 || y % 400 = 0)

/-- Number of days in a month, as validated by the Python datetime
constructor. -/
def daysInMonth (y m : Nat) : Nat :=
  if m = 2 then (if isLeap y then 29 else 28)
  else if m = 4 ∨ m = 6 ∨ m = 9 ∨ m = 11 then 30
  else 31

/-- Time-of-day components `HH[:MM[:SS[.fff[fff]]]]` exactly as accepted by
CPython `_parse_hh_mm_ss_ff` (fractions of exactly three or six digits), with
no range validation. -/
def parseHMSF : List Char → Option (Nat × Nat × Nat × Nat)
  | [h1, h2] => do pure (← dig2 h1 h2, 0, 0, 0)
  | [h1, h2, ':', m1, m2] => do pure (← dig2 h1 h2, ← dig2 m1 m2, 0, 0)
  | [h1, h2, ':', m1, m2, ':', s1, s2] => do
    pure (← dig2 h1 h2, ← dig2 m1 m2, ← dig2 s1 s2, 0)
  | [h1, h2, ':', m1, m2, ':', s1, s2, '.', f1, f2, f3] => do
    pure (← dig2 h1 h2, ← dig2 m1 m2, ← dig2 s1 s2,
      ((← dig f1) * 100 + (← dig f2) * 10 + (← dig f3)) * 1000)
  | [h1, h2, ':', m1, m2, ':', s1, s2, '.', f1, f2, f3, f4, f5, f6] => do
    pure (← dig2 h1 h2, ← dig2 m1 m2, ← dig2 s1 s2,
      (← dig f1) * 100000 + (← dig f2) * 10000 + (← dig f3) * 1000
        + (← dig f4) * 100 + (← dig f5) * 10 + (← dig f6))
  | _ => none

/-- UTC-offset part `HH:MM[:SS[.ffffff]]` following the sign character, with
total magnitude strictly below 24 hours, in microseconds. -/
def parseTzOffset (sign : Int) (cs : List Char) : Option Int := do
  let (h, m, s, f) ←
    match cs with
    | [h1, h2, ':', m1, m2] => parseHMSF [h1, h2, ':', m1, m2]
    | [h1, h2, ':', m1, m2, ':', s1, s2] => parseHMSF [h1, h2, ':', m1, m2, ':', s1, s2]
    | [h1, h2, ':', m1, m2, ':', s1, s2, '.', f1, f2, f3, f4, f5, f6] =>
      parseHMSF [h1, h2, ':', m1, m2, ':', s1, s2, '.', f1, f2, f3, f4, f5, f6]
    | _ => none
  let off : Int := sign * (((h * 3600 + m * 60 + s) * 1000000 + f : Nat) : Int)
  guard (off.natAbs < 86400000000)
  pure off

/-- Time-of-day with optional trailing UTC offset. CPython splits the time
string at its first minus sign, else at its first plus sign; the part before
the sign is the clock time and the part after it the offset. -/
def parseIsoTimeChars (cs : List Char) : Option (Nat × Nat × Nat × Nat × Option Int) := do
  let signIdx :=
    match cs.findIdx? (fun c => c = '-') with
    | some i => some i
    | none => cs.findIdx? (fun c => c = '+')
  match signIdx with
  | none => do
    let (h, m, s, f) ← parseHMSF cs
    guard (h ≤ 23 ∧ m ≤ 59 ∧ s ≤ 59)
    pure (h, m, s, f, none)
  | some i => do
    let sign : Int := if cs.getD i ' ' = '-' then -1 else 1
    let (h, m, s, f) ← parseHMSF (cs.take i)
    guard (h ≤ 23 ∧ m ≤ 59 ∧ s ≤ 59)
    let off ← parseTzOffset sign (cs.drop (i + 1))
    pure (h, m, s, f, some off)

/-- Grammar of `datetime.datetime.fromisoformat` in CPython 3.7 through 3.10,
the interpreters contemporary with this source: the inverse of
`datetime.isoformat`, that is `YYYY-MM-DD` optionally followed by one
arbitrary separator character and `HH[:MM[:SS[.fff[fff]]]][(+|-)HH:MM[:SS[.ffffff]]]`.
A trailing `Z` zone designator is not part of the grammar and is rejected. -/
def parseIso (cs : List Char) : Option PyDateTime :=
  match cs with
  | y1 :: y2 :: y3 :: y4 :: '-' :: m1 :: m2 :: '-' :: d1 :: d2 :: rest => do
    let y ← dig4 y1 y2 y3 y4
    let mo ← dig2 m1 m2
    let da ← dig2 d1 d2
    guard (1 ≤ y ∧ 1 ≤ mo ∧ mo ≤ 12 ∧ 1 ≤ da ∧ da ≤ daysInMonth y mo)
    match rest with
    | [] => pure ⟨y, mo, da, 0, 0, 0, 0, none⟩
    | _sep :: tcs => do
      let (h, mi, s, f, tz) ← parseIsoTimeChars tcs
      pure ⟨y, mo, da, h, mi, s, f, tz⟩
  | _ => none

/-- CPython `datetime.fromisoformat` on a character list, with the ValueError
it raises on a string outside the grammar (exception message approximated;
no claim depends on message text). -/
def pyFromIsoFormatChars (cs : List Char) : Except Err PyDateTime :=
  match parseIso cs with
  | some dt => .ok dt
  | none => .error (.valueError ("Invalid isoformat string: " ++ String.mk cs))

/-- Modelled from the spec: the shared timestamp parser `parse_timestamp`
imported from twitchio.utils, whose source file is not under src/. Per the
spec (Timestamp normalization) it truncates fractional seconds of varying
precision, tolerates a trailing zone marker, and treats the rest as an ISO
date-time: everything from the first dot is dropped, then one trailing Z is
dropped, then the remainder is parsed. -/
def parse_timestamp (v : JVal) : Except Err PyDateTime := do
  let s ← asStr v
  let noFrac := s.data.takeWhile (fun c => c ≠ '.')
  let noZone := if noFrac.getLast? = some 'Z' then noFrac.dropLast else noFrac
  pyFromIsoFormatChars noZone

/-- Modelled from the spec: `PartialUser` from twitchio/user.py, which is not
under src/. A minimal placeholder user built from an id and a display-name
value found inline in a payload; per the spec its identity field is coerced
string-to-integer and the display name is stored as given. Construction
performs no network call. A caller-supplied resolved `User` is a richer
record with the same identity shape and is carried by the same type here. -/
structure PartialUser where
  id : Int
  name : JVal

/-- Construction of a placeholder user from two raw payload values, with the
string-to-integer coercion of the identity field. -/
def PartialUser.ofRaw (idv namev : JVal) : Except Err PartialUser := do
  let i ← pyInt idv
  pure ⟨i, namev⟩

/-- The idiom `PartialUser(http, data[idKey], data[nameKey])` used throughout
models.py: both payload fields are looked up and the placeholder is built
from them. -/
def PartialUser.fromFields (d : JVal) (idKey nameKey : String) : Except Err PartialUser := do
  let i ← jget d idKey
  let n ← jget d nameKey
  PartialUser.ofRaw i n

/-- The idiom `supplied or PartialUser(http, data[idKey], data[nameKey])`
used by the constructors that accept a caller-supplied resolved user: user
objects are always truthy in Python, so a supplied record is taken exactly
as given and only an absent argument falls back to the inline placeholder. -/
def resolveRef (supplied : Option PartialUser) (d : JVal) (idKey nameKey : String) :
    Except Err PartialUser :=
  match supplied with
  | some u => pure u
  | none => PartialUser.fromFields d idKey nameKey

/-- BanEvent (models.py): a user being banned/unbanned from a channel. Field
order matches the assignment order of `BanEvent.__init__`. -/
structure BanEvent where
  id : JVal
  type : JVal
  timestamp : PyDateTime
  version : ℚ
  reason : JVal
  broadcaster : PartialUser
  user : PartialUser
  moderator : PartialUser
  expires_at : Option PyDateTime

/-- Construction of a `BanEvent` from a payload, mirroring
`BanEvent.__init__(http, data, broadcaster)` line by line. The optional
`broadcaster` argument models `Optional[Union[PartialUser, User]]`; the
source uses `broadcaster or PartialUser(...)` and user objects are always
truthy, so a supplied record is taken as-is. `expires_at` is parsed only when
the (always present) payload value is truthy; a null or empty value yields
the absent result. -/
def BanEvent.ofData (broadcaster : Option PartialUser) (d : JVal) : Except Err BanEvent := do
  let id ← jget d "id"
  let ty ← jget d "event_type"
  let ts ← parse_timestamp (← jget d "event_timestamp")
  let ver ← pyFloat (← jget d "version")
  let ed ← jget d "event_data"
  let reason ← jget ed "reason"
  let b ← resolveRef broadcaster ed "broadcaster_id" "broadcaster_name"
  let u ← PartialUser.fromFields ed "user_id" "user_name"
  let m ← PartialUser.fromFields ed "moderator_id" "moderator_name"
  let ex ← jget ed "expires_at"
  let expires ←
    if truthy ex then do
      pure (some (← parse_timestamp ex))
    else
      pure none
  pure ⟨id, ty, ts, ver, reason, b, u, m, expires⟩

/-- FollowEvent (models.py): one user following another. -/
structure FollowEvent where
  from_user : PartialUser
  to_user : PartialUser
  followed_at : PyDateTime

/-- Construction of a `FollowEvent` from a payload, mirroring
`FollowEvent.__init__(http, data, from_, to)`: each reference is the
caller-supplied resolved entity when one is given, else a placeholder built
from the inline id/name payload fields. -/
def FollowEvent.ofData (from_ to_ : Option PartialUser) (d : JVal) : Except Err FollowEvent := do
  let fu ← resolveRef from_ d "from_id" "from_name"
  let tu ← resolveRef to_ d "to_id" "to_name"
  let fa ← parse_timestamp (← jget d "followed_at")
  pure ⟨fu, tu, fa⟩

/-- SubscriptionEvent (models.py): a channel subscription. -/
structure SubscriptionEvent where
  broadcaster : PartialUser
  user : PartialUser
  tier : Int
  plan_name : JVal
  gift : JVal

/-- Construction of a `SubscriptionEvent` from a payload, mirroring
`SubscriptionEvent.__init__(http, data, broadcaster, user)`. The tier is
`round(int(data["tier"]) / 1000)`. -/
def SubscriptionEvent.ofData (broadcaster user : Option PartialUser) (d : JVal) :
    Except Err SubscriptionEvent := do
  let b ← resolveRef broadcaster d "broadcaster_id" "broadcaster_name"
  let u ← resolveRef user d "user_id" "user_name"
  let ti ← pyInt (← jget d "tier")
  let plan ← jget d "plan_name"
  let gift ← jget d "is_gift"
  pure ⟨b, u, pyRoundDiv ti 1000, plan, gift⟩

/-- Marker (models.py): a stream marker. `position` holds the
`position_seconds` payload field; `url` is the optional `URL` field read
with `data.get`. -/
structure Marker where
  id : JVal
  created_at : PyDateTime
  description : JVal
  position : JVal
  url : Option JVal

/-- Construction of a `Marker` from a payload, mirroring `Marker.__init__`. -/
def Marker.ofData (d : JVal) : Except Err Marker := do
  let id ← jget d "id"
  let ca ← parse_timestamp (← jget d "created_at")
  let desc ← jget d "description"
  let pos ← jget d "position_seconds"
  let url ← dictGet d "URL"
  pure ⟨id, ca, desc, pos, url⟩

/-- Clip (models.py): a Twitch clip. -/
structure Clip where
  id : JVal
  url : JVal
  embed_url : JVal
  broadcaster : PartialUser
  creator : PartialUser
  video_id : JVal
  game_id : JVal
  language : JVal
  title : JVal
  views : JVal
  created_at : PyDateTime
  thumbnail_url : JVal

/-- Construction of a `Clip` from a payload, mirroring `Clip.__init__` in
source line order: a payload missing any accessed key fails with the
KeyError of the first missing access. -/
def Clip.ofData (d : JVal) : Except Err Clip := do
  let id ← jget d "id"
  let url ← jget d "url"
  let embed ← jget d "embed_url"
  let b ← PartialUser.fromFields d "broadcaster_id" "broadcaster_name"
  let c ← PartialUser.fromFields d "creator_id" "creator_name"
  let vid ← jget d "video_id"
  let gid ← jget d "game_id"
  let lang ← jget d "language"
  let title ← jget d "title"
  let views ← jget d "view_count"
  let ca ← parse_timestamp (← jget d "created_at")
  let thumb ← jget d "thumbnail_url"
  pure ⟨id, url, embed, b, c, vid, gid, lang, title, views, ca, thumb⟩

/-- Stream (models.py): a live stream. -/
structure Stream where
  id : JVal
  user : PartialUser
  game_id : JVal
  game_name : JVal
  type : JVal
  title : JVal
  viewer_count : JVal
  started_at : PyDateTime
  language : JVal
  thumbnail_url : JVal
  tag_ids : JVal
  is_mature : JVal

/-- Construction of a `Stream` from a payload, mirroring `Stream.__init__`
in source line order. -/
def Stream.ofData (d : JVal) : Except Err Stream := do
  let id ← jget d "id"
  let u ← PartialUser.fromFields d "user_id" "user_name"
  let gid ← jget d "game_id"
  let gname ← jget d "game_name"
  let ty ← jget d "type"
  let title ← jget d "title"
  let vc ← jget d "viewer_count"
  let sa ← parse_timestamp (← jget d "started_at")
  let lang ← jget d "language"
  let thumb ← jget d "thumbnail_url"
  let tags ← jget d "tag_ids"
  let mature ← jget d "is_mature"
  pure ⟨id, u, gid, gname, ty, title, vc, sa, lang, thumb, tags, mature⟩

/-- Video (models.py): video information. -/
structure Video where
  id : Int
  user : PartialUser
  title : JVal
  description : JVal
  created_at : PyDateTime
  published_at : PyDateTime
  url : JVal
  thumbnail_url : JVal
  viewable : JVal
  view_count : JVal
  language : JVal
  type : JVal
  duration : JVal

/-- Construction of a `Video` from a payload, mirroring
`Video.__init__(http, data, user)`: `id` is `int(data["id"])` and the user
reference is the caller-supplied entity when given, else a placeholder from
the inline `user_id`/`user_name` fields. -/
def Video.ofData (user : Option PartialUser) (d : JVal) : Except Err Video := do
  let id ← pyInt (← jget d "id")
  let u ← resolveRef user d "user_id" "user_name"
  let title ← jget d "title"
  let desc ← jget d "description"
  let ca ← parse_timestamp (← jget d "created_at")
  let pa ← parse_timestamp (← jget d "published_at")
  let url ← jget d "url"
  let thumb ← jget d "thumbnail_url"
  let viewable ← jget d "viewable"
  let vc ← jget d "view_count"
  let lang ← jget d "language"
  let ty ← jget d "type"
  let dur ← jget d "duration"
  pure ⟨id, u, title, desc, ca, pa, url, thumb, viewable, vc, lang, ty, dur⟩

/-- Extension (models.py): the generic extension-update record. `xCoord` and
`yCoord` embed the private `_x`/`_y` attributes; `Extension.__init__` always
sets them to None, and only the `Extension.new` classmethod can populate
them. -/
structure Extension where
  id : JVal
  version : JVal
  active : JVal
  xCoord : Option JVal
  yCoord : Option JVal

/-- Construction of an `Extension` from a payload, mirroring
`Extension.__init__(data)`: only `id`, `version` and `active` are read; the
coordinates are unconditionally set to None. -/
def Extension.ofData (d : JVal) : Except Err Extension := do
  let id ← jget d "id"
  let ver ← jget d "version"
  let act ← jget d "active"
  pure ⟨id, ver, act, none, none⟩

/-- The `Extension.new(active, version, id, x, y)` classmethod: builds the
record directly from the given arguments. -/
def Extension.new (active version id : JVal) (x y : Option JVal) : Extension :=
  ⟨id, version, active, x, y⟩

/-- Outbound serialization `Extension._to_dict`: the keys `active`, `id`,
`version` in that insertion order, then `x` and `y` only when the private
coordinates are not None. -/
def Extension.toDict (e : Extension) : List (String × JVal) :=
  [("active", e.active), ("id", e.id), ("version", e.version)]
    ++ (match e.xCoord with | some v => [("x", v)] | none => [])
    ++ (match e.yCoord with | some v => [("y", v)] | none => [])

/-- ExtensionBuilder (models.py): the mutable aggregate of pending extension
updates, three ordered sequences. -/
structure ExtensionBuilder where
  panels : List Extension
  overlays : List Extension
  components : List Extension

/-- Construction mirroring `ExtensionBuilder.__init__(panels, overlays,
components)` with its `panels or []` defaults (a supplied empty list and an
omitted argument both give the empty sequence). -/
def ExtensionBuilder.ofArgs (panels overlays components : Option (List Extension)) :
    ExtensionBuilder :=
  ⟨panels.getD [], overlays.getD [], components.getD []⟩

/-- Outbound flattening `ExtensionBuilder._to_dict`: each sequence becomes a
map keyed by the decimal string of each element position, in insertion
order. -/
def ExtensionBuilder.toDict (b : ExtensionBuilder) :
    List (String × List (String × List (String × JVal))) :=
  [("panel", b.panels.enum.map (fun p => (toString p.1, Extension.toDict p.2))),
   ("overlay", b.overlays.enum.map (fun p => (toString p.1, Extension.toDict p.2))),
   ("component", b.components.enum.map (fun p => (toString p.1, Extension.toDict p.2)))]

/-- AutomodCheckMessage (models.py): an outbound message-check request. -/
structure AutomodCheckMessage where
  id : String
  text : String
  user_id : Int

/-- The `Union[PartialUser, int]` user argument of
`AutomodCheckMessage.__init__`. -/
inductive UserOrInt where
  | user (p : PartialUser)
  | int (i : Int)

/-- Construction mirroring `AutomodCheckMessage.__init__(id, text, user)`:
the stored user id is `user.id` when a user record is given (resolved `User`
records are also `PartialUser` instances), else the bare integer itself. -/
def AutomodCheckMessage.make (id text : String) (user : UserOrInt) : AutomodCheckMessage :=
  ⟨id, text, match user with | .user p => p.id | .int i => i⟩

/-- Outbound serialization `AutomodCheckMessage._to_dict`: exactly the keys
`msg_id`, `msg_text` and `user_id`, the last holding `str(self.user_id)`. -/
def AutomodCheckMessage.toDict (m : AutomodCheckMessage) : List (String × JVal) :=
  [("msg_id", .str m.id), ("msg_text", .str m.text), ("user_id", .str (toString m.user_id))]

/-- ScheduleCategory (models.py): game or category details of a schedule
segment. -/
structure ScheduleCategory where
  id : JVal
  name : JVal

/-- Construction mirroring `ScheduleCategory.__init__`. -/
def ScheduleCategory.ofData (d : JVal) : Except Err ScheduleCategory := do
  let id ← jget d "id"
  let name ← jget d "name"
  pure ⟨id, name⟩

/-- ScheduleVacation (models.py): vacation details of a schedule. -/
structure ScheduleVacation where
  start_time : PyDateTime
  end_time : PyDateTime

/-- Construction mirroring `ScheduleVacation.__init__`. -/
def ScheduleVacation.ofData (d : JVal) : Except Err ScheduleVacation := do
  let st ← parse_timestamp (← jget d "start_time")
  let en ← parse_timestamp (← jget d "end_time")
  pure ⟨st, en⟩

/-- ScheduleSegment (models.py): one segment of a stream schedule. -/
structure ScheduleSegment where
  id : JVal
  start_time : PyDateTime
  end_time : PyDateTime
  title : JVal
  canceled_until : Option PyDateTime
  category : Option ScheduleCategory
  is_recurring : JVal

/-- Construction mirroring `ScheduleSegment.__init__`: `canceled_until` and
`category` are parsed only when the payload value is truthy, a null value
yielding the absent result. -/
def ScheduleSegment.ofData (d : JVal) : Except Err ScheduleSegment := do
  let id ← jget d "id"
  let st ← parse_timestamp (← jget d "start_time")
  let en ← parse_timestamp (← jget d "end_time")
  let title ← jget d "title"
  let cu ← jget d "canceled_until"
  let canceled ←
    if truthy cu then do
      pure (some (← parse_timestamp cu))
    else
      pure none
  let cat ← jget d "category"
  let category ←
    if truthy cat then do
      pure (some (← ScheduleCategory.ofData cat))
    else
      pure none
  let ir ← jget d "is_recurring"
  pure ⟨id, st, en, title, canceled, category, ir⟩

/-- Schedule (models.py): a stream schedule with its segments. -/
structure Schedule where
  segments : List ScheduleSegment
  user : PartialUser
  vacation : Option ScheduleVacation

/-- Construction mirroring `Schedule.__init__(http, data)`: the segment list
preserves payload order; `vacation` is parsed only when truthy. -/
def Schedule.ofData (d : JVal) : Except Err Schedule := do
  let dd ← jget d "data"
  let segsv ← jget dd "segments"
  let segs ←
    match segsv with
    | .arr items => items.mapM ScheduleSegment.ofData
    | _ => .error (.typeError "segments value is not iterable")
  let u ← PartialUser.fromFields dd "broadcaster_id" "broadcaster_login"
  let vv ← jget dd "vacation"
  let vacation ←
    if truthy vv then do
      pure (some (← ScheduleVacation.ofData vv))
    else
      pure none
  pure ⟨segs, u, vacation⟩

/-- Predictor (models.py): a top predictor of a prediction outcome, as its
docstring documents it. -/
structure Predictor where
  channel_points_used : JVal
  channel_points_won : JVal
  user : PartialUser

/-- Construction mirroring `Predictor.__init__(http, data)`. Its first line
evaluates `data["channel_points_used"]` and assigns it to
`self.channel_points_used`; that name is not declared in
`Predictor.__slots__` (which lists only outcome_id, title, channel_points,
color) and the class has no instance dict, so CPython raises AttributeError
on the assignment after the successful key lookup. No `Predictor` is ever
constructed. -/
def Predictor.ofData (d : JVal) : Except Err Predictor := do
  let _ ← jget d "channel_points_used"
  .error (.attributeError "channel_points_used")

/-- PredictionOutcome (models.py): a prediction outcome. Every other class
embedded in this file assigns only attributes declared in its own
`__slots__`, so the plain-record embedding is faithful for them. -/
structure PredictionOutcome where
  outcome_id : JVal
  title : JVal
  channel_points : JVal
  color : JVal
  users : JVal
  top_predictors : Option (List Predictor)

/-- Construction mirroring `PredictionOutcome.__init__(http, data)`: a falsy
`top_predictors` value (null or the empty list) yields None, a truthy list
builds one `Predictor` per element in order. -/
def PredictionOutcome.ofData (d : JVal) : Except Err PredictionOutcome := do
  let oid ← jget d "id"
  let title ← jget d "title"
  let cp ← jget d "channel_points"
  let color ← jget d "color"
  let users ← jget d "users"
  let tp ← jget d "top_predictors"
  let top ←
    if truthy tp then do
      match tp with
      | .arr items => do pure (some (← items.mapM Predictor.ofData))
      | _ => .error (.typeError "top_predictors value is not iterable")
    else
      pure none
  pure ⟨oid, title, cp, color, users, top⟩

/-- Prediction namespace holder for the prediction record type of models.py;
only its time parser is needed by the claims. -/
structure Prediction where
  prediction_id : JVal

/-- The `Prediction._parse_time(data, field)` helper, which depends only on
its arguments: an absent key or a None value returns None; otherwise the
value is split at dots, the part before the first dot is kept, and that
string is given to `datetime.datetime.fromisoformat`. Note the split removes
a trailing zone marker only when a fractional part is present. -/
def Prediction.parseTime (data : JVal) (field : String) : Except Err (Option PyDateTime) :=
  match data with
  | .obj kvs =>
    match lookupKey kvs field with
    | none => .ok none
    | some .null => .ok none
    | some v => do
      let s ← asStr v
      let truncated := s.data.takeWhile (fun c => c ≠ '.')
      let dt ← pyFromIsoFormatChars truncated
      pure (some dt)
  | _ => .error (.typeError "argument is not a container")

/-- Removal of one key from a payload object: the missing-required-field
experiment of the testable properties. -/
def removeKey (d : JVal) (k : String) : JVal :=
  match d with
  | .obj kvs => .obj (kvs.filter (fun p => p.1 != k))
  | v => v

/-- The guaranteed payload fields of `Clip.__init__`, in access order. -/
def clipRequiredKeys : List String :=
  ["id", "url", "embed_url", "broadcaster_id", "broadcaster_name", "creator_id",
   "creator_name", "video_id", "game_id", "language", "title", "view_count",
   "created_at", "thumbnail_url"]

/-- A well-formed clip payload holding exactly the guaranteed fields. -/
def clipSample : JVal := .obj
  [("id", .str "c1"), ("url", .str "u"), ("embed_url", .str "e"),
   ("broadcaster_id", .str "1"), ("broadcaster_name", .str "b"),
   ("creator_id", .str "2"), ("creator_name", .str "cr"), ("video_id", .str "v"),
   ("game_id", .str "g"), ("language", .str "en"), ("title", .str "t"),
   ("view_count", .num 10), ("created_at", .str "2021-05-01T12:00:00Z"),
   ("thumbnail_url", .str "th")]

/-- The guaranteed payload fields of `Stream.__init__`, in access order. -/
def streamRequiredKeys : List String :=
  ["id", "user_id", "user_name", "game_id", "game_name", "type", "title",
   "viewer_count", "started_at", "language", "thumbnail_url", "tag_ids", "is_mature"]

/-- A well-formed stream payload holding exactly the guaranteed fields. -/
def streamSample : JVal := .obj
  [("id", .num 123), ("user_id", .str "7"), ("user_name", .str "s"),
   ("game_id", .num 1), ("game_name", .str "g"), ("type", .str "live"),
   ("title", .str "t"), ("viewer_count", .num 10),
   ("started_at", .str "2021-05-01T12:00:00Z"), ("language", .str "en"),
   ("thumbnail_url", .str "th"), ("tag_ids", .arr []), ("is_mature", .bool false)]

/-- The instant denoted by the sample timestamp 2021-05-01T12:00:00Z after
normalization. -/
def sampleDT : PyDateTime := ⟨2021, 5, 1, 12, 0, 0, 0, none⟩

/-- A caller-supplied resolved user entity. -/
def pu1 : PartialUser := ⟨99, .str "resolvedA"⟩

/-- A second caller-supplied resolved user entity. -/
def pu2 : PartialUser := ⟨98, .str "resolvedB"⟩

/-- A well-formed follow-event payload. -/
def followSample : JVal := .obj
  [("from_id", .str "1"), ("from_name", .str "alice"), ("to_id", .str "2"),
   ("to_name", .str "bob"), ("followed_at", .str "2021-05-01T12:00:00Z")]

/-- The record `FollowEvent.__init__` builds from `followSample` with no
caller-supplied entities. -/
def followSampleRecord : FollowEvent := ⟨⟨1, .str "alice"⟩, ⟨2, .str "bob"⟩, sampleDT⟩

/-- A well-formed subscription-event payload with tier 1000. -/
def subSample : JVal := .obj
  [("broadcaster_id", .str "1"), ("broadcaster_name", .str "b"),
   ("user_id", .str "2"), ("user_name", .str "u"), ("tier", .str "1000"),
   ("plan_name", .str "Channel Subscription"), ("is_gift", .bool false)]

/-- The record `SubscriptionEvent.__init__` builds from `subSample` with no
caller-supplied entities. -/
def subSampleRecord : SubscriptionEvent :=
  ⟨⟨1, .str "b"⟩, ⟨2, .str "u"⟩, 1, .str "Channel Subscription", .bool false⟩

/-- The event_data object of the sample ban-event payload, with a null
expiry. -/
def banSampleED : JVal := .obj
  [("reason", .str "spam"), ("broadcaster_id", .num 10), ("broadcaster_name", .str "b"),
   ("user_id", .num 20), ("user_name", .str "u"), ("moderator_id", .num 30),
   ("moderator_name", .str "m"), ("expires_at", .null)]

/-- A well-formed ban-event payload whose expires_at value is null. -/
def banSample : JVal := .obj
  [("id", .str "e1"), ("event_type", .str "moderation.user.ban"),
   ("event_timestamp", .str "2021-05-01T12:00:00Z"), ("version", .num 1),
   ("event_data", banSampleED)]

/-- The record `BanEvent.__init__` builds from `banSample` with no
caller-supplied broadcaster. -/
def banSampleRecord : BanEvent :=
  ⟨.str "e1", .str "moderation.user.ban", sampleDT, ((1 : Int) : ℚ), .str "spam",
   ⟨10, .str "b"⟩, ⟨20, .str "u"⟩, ⟨30, .str "m"⟩, none⟩

/-- The record `BanEvent.__init__` builds from `banSample` when the caller
supplies the resolved broadcaster `pu1`. -/
def banSampleRecordSupplied : BanEvent :=
  ⟨.str "e1", .str "moderation.user.ban", sampleDT, ((1 : Int) : ℚ), .str "spam",
   pu1, ⟨20, .str "u"⟩, ⟨30, .str "m"⟩, none⟩

/-- A well-formed marker payload holding exactly the guaranteed fields (the
optional URL key is absent). -/
def markerSample : JVal := .obj
  [("id", .str "m1"), ("created_at", .str "2021-05-01T12:00:00Z"),
   ("description", .str "desc"), ("position_seconds", .num 5)]

/-- The record `Marker.__init__` builds from `markerSample`. -/
def markerSampleRecord : Marker := ⟨.str "m1", sampleDT, .str "desc", .num 5, none⟩

/-- A well-formed video payload. -/
def videoSample : JVal := .obj
  [("id", .str "100"), ("user_id", .str "7"), ("user_name", .str "v"),
   ("title", .str "t"), ("description", .str "d"),
   ("created_at", .str "2021-05-01T12:00:00Z"),
   ("published_at", .str "2021-05-01T12:00:00Z"), ("url", .str "u"),
   ("thumbnail_url", .str "th"), ("viewable", .str "public"), ("view_count", .num 1),
   ("language", .str "en"), ("type", .str "upload"), ("duration", .str "1h")]

/-- The record `Video.__init__` builds from `videoSample` with no
caller-supplied user. -/
def videoSampleRecord : Video :=
  ⟨100, ⟨7, .str "v"⟩, .str "t", .str "d", sampleDT, sampleDT, .str "u", .str "th",
   .str "public", .num 1, .str "en", .str "upload", .str "1h"⟩

/-- The record `Video.__init__` builds from `videoSample` when the caller
supplies the resolved user `pu1`. -/
def videoSampleRecordSupplied : Video :=
  ⟨100, pu1, .str "t", .str "d", sampleDT, sampleDT, .str "u", .str "th",
   .str "public", .num 1, .str "en", .str "upload", .str "1h"⟩

/-- A sample pending extension update, as built by `Extension.new`. -/
def extSample : Extension := Extension.new (.bool true) (.str "1.0") (.str "abc") none none

/-- A prediction-outcome payload whose top_predictors list is non-empty. -/
def outcomeSampleFilled : JVal := .obj
  [("id", .str "o1"), ("title", .str "yes"), ("channel_points", .num 10),
   ("color", .str "BLUE"), ("users", .num 3),
   ("top_predictors", .arr [.obj
     [("channel_points_used", .num 5), ("channel_points_won", .num 0),
      ("user", .obj [("id", .str "1"), ("name", .str "u")])]])]

/-- The same prediction-outcome payload with a null top_predictors value. -/
def outcomeSampleNull : JVal := .obj
  [("id", .str "o1"), ("title", .str "yes"), ("channel_points", .num 10),
   ("color", .str "BLUE"), ("users", .num 3), ("top_predictors", .null)]

/-- The same prediction-outcome payload with an empty top_predictors list. -/
def outcomeSampleEmpty : JVal := .obj
  [("id", .str "o1"), ("title", .str "yes"), ("channel_points", .num 10),
   ("color", .str "BLUE"), ("users", .num 3), ("top_predictors", .arr [])]

/-- Computation rule for pure in the exception monad of the embedding. -/
theorem exc_pure {α : Type} (a : α) : (pure a : Except Err α) = .ok a := rfl

/-- Computation rule for bind on a successful step. -/
theorem exc_bind_ok {α β : Type} (a : α) (f : α → Except Err β) :
    (Except.ok a >>= f) = f a := rfl

/-- Computation rule for bind on a raised exception: the error propagates
unchanged and the continuation never runs. -/
theorem exc_bind_err {α β : Type} (e : Err) (f : α → Except Err β) :
    ((Except.error e : Except Err α) >>= f) = .error e := rfl

/-- Inversion of a successful bind: the first step succeeded and the
continuation succeeded on its value. -/
theorem exBind_ok {α β : Type} {x : Except Err α} {f : α → Except Err β} {b : β}
    (h : x >>= f = .ok b) : ∃ a, x = .ok a ∧ f a = .ok b := by
  cases x with
  | error e => exact Except.noConfusion h
  | ok a => exact ⟨a, rfl, h⟩

/-- Reduction of a conditional whose Bool condition is the literal false. -/
theorem if_false_eq_true {α : Type} (a b : α) : (if (false = true) then a else b) = b := rfl

/-- Reduction of a conditional whose Bool condition is the literal true. -/
theorem if_true_eq_true {α : Type} (a b : α) : (if (true = true) then a else b) = a := rfl

/-- Keys of the keyed-by-index map built from one builder sequence starting
at position n: the decimal strings of the consecutive positions. -/
theorem enumKeysAux (n : Nat) (l : List Extension) :
    ((l.enumFrom n).map (fun p => (toString p.1, Extension.toDict p.2))).map Prod.fst
      = (List.range' n l.length).map toString := by
  induction l generalizing n with
  | nil => rfl
  | cons x xs ih =>
    simp only [List.enumFrom, List.map_cons, List.range', List.length_cons]
    rw [ih]

/-- Keys of the keyed-by-index map built from one builder sequence: the
decimal strings of the positions 0, 1, ... in order. -/
theorem enumKeys (l : List Extension) :
    ((l.enum).map (fun p => (toString p.1, Extension.toDict p.2))).map Prod.fst
      = (List.range l.length).map toString := by
  rw [List.range_eq_range']
  exact enumKeysAux 0 l

/-- Key structure of the flattened extension-builder payload, for arbitrary
sequences. -/
theorem builderKeys (ps os cs : List Extension) :
    (ExtensionBuilder.toDict ⟨ps, os, cs⟩).map (fun e => (e.1, e.2.map Prod.fst))
      = [("panel", (List.range ps.length).map toString),
         ("overlay", (List.range os.length).map toString),
         ("component", (List.range cs.length).map toString)] := by
  simp only [ExtensionBuilder.toDict, List.map_cons, List.map_nil]
  rw [enumKeys ps, enumKeys os, enumKeys cs]

/-- C1 counterexample: the two inputs of the claim do not parse alike under
the prediction time parser. The dot-split of Prediction._parse_time strips
the zone marker together with a fractional part, so the fractional input
parses to the truncated-to-second instant, while in the whole-second input
the trailing Z survives the split and datetime.fromisoformat (CPython
3.7-3.10, the interpreters contemporary with this source) rejects it with a
ValueError. -/
theorem claim_C1_counterexample :
    Prediction.parseTime (.obj [("created_at", .str "2021-05-01T12:00:00Z")]) "created_at"
      = .error (.valueError "Invalid isoformat string: 2021-05-01T12:00:00Z")
    ∧ Prediction.parseTime (.obj [("created_at", .str "2021-05-01T12:00:00.123456Z")]) "created_at"
      = .ok (some ⟨2021, 5, 1, 12, 0, 0, 0, none⟩)
    ∧ Prediction.parseTime (.obj [("created_at", .str "2021-05-01T12:00:00Z")]) "created_at"
      ≠ Prediction.parseTime (.obj [("created_at", .str "2021-05-01T12:00:00.123456Z")]) "created_at" := by
  refine ⟨rfl, rfl, fun h => ?_⟩
  rw [show Prediction.parseTime (.obj [("created_at", .str "2021-05-01T12:00:00Z")]) "created_at"
        = (.error (.valueError "Invalid isoformat string: 2021-05-01T12:00:00Z")
          : Except Err (Option PyDateTime)) from rfl,
      show Prediction.parseTime (.obj [("created_at", .str "2021-05-01T12:00:00.123456Z")]) "created_at"
        = (.ok (some ⟨2021, 5, 1, 12, 0, 0, 0, none⟩) : Except Err (Option PyDateTime)) from rfl] at h
  exact Except.noConfusion h

/-- C1, amended: an absent key or a null value in a nullable timestamp field
yields the absent result (None), not an error, both in the prediction time
parser and for the ban-event expiry; the fractional input
2021-05-01T12:00:00.123456Z parses to the truncated-to-second instant
2021-05-01T12:00:00 (fraction and zone marker both removed by the dot
split); but the whole-second input with a trailing Z fails to parse, as the
counterexample records, so the two inputs of the original claim do not parse
to the same instant. -/
theorem claim_C1 :
    (∀ (kvs : List (String × JVal)) (field : String), lookupKey kvs field = none →
        Prediction.parseTime (.obj kvs) field = .ok none)
    ∧ (∀ (kvs : List (String × JVal)) (field : String), lookupKey kvs field = some .null →
        Prediction.parseTime (.obj kvs) field = .ok none)
    ∧ Prediction.parseTime (.obj [("ended_at", .str "2021-05-01T12:00:00.123456Z")]) "ended_at"
        = .ok (some ⟨2021, 5, 1, 12, 0, 0, 0, none⟩)
    ∧ (∀ (b : Option PartialUser) (d ed ex : JVal) (r : BanEvent),
        BanEvent.ofData b d = .ok r → jget d "event_data" = .ok ed →
        jget ed "expires_at" = .ok ex → truthy ex = false → r.expires_at = none) := by
  refine ⟨?_, ?_, rfl, ?_⟩
  · intro kvs field h
    simp only [Prediction.parseTime, h]
  · intro kvs field h
    simp only [Prediction.parseTime, h]
  · intro b d ed ex r hok hed hex htr
    unfold BanEvent.ofData at hok
    simp only [exc_pure, exc_bind_ok] at hok
    obtain ⟨id, h1, hok⟩ := exBind_ok hok
    obtain ⟨ty, h2, hok⟩ := exBind_ok hok
    obtain ⟨tsv, h3, hok⟩ := exBind_ok hok
    obtain ⟨ts, h4, hok⟩ := exBind_ok hok
    obtain ⟨verv, h5, hok⟩ := exBind_ok hok
    obtain ⟨ver, h6, hok⟩ := exBind_ok hok
    obtain ⟨ed2, h7, hok⟩ := exBind_ok hok
    rw [hed] at h7
    injection h7 with h7
    subst h7
    obtain ⟨reason, h8, hok⟩ := exBind_ok hok
    obtain ⟨bu, h9, hok⟩ := exBind_ok hok
    obtain ⟨uu, h10, hok⟩ := exBind_ok hok
    obtain ⟨mu, h11, hok⟩ := exBind_ok hok
    obtain ⟨ex2, h12, hok⟩ := exBind_ok hok
    rw [hex] at h12
    injection h12 with h12
    subst h12
    rw [htr, if_false_eq_true] at hok
    injection hok with hok
    subst hok
    rfl

/-- C1 witness: the amended theorem applied to an absent key, to a null
value, and to the sample ban event with a null expiry. -/
theorem claim_C1_witness :
    Prediction.parseTime (.obj [("title", .str "x")]) "ended_at" = .ok none
    ∧ Prediction.parseTime (.obj [("locked_at", .null)]) "locked_at" = .ok none
    ∧ banSampleRecord.expires_at = none :=
  ⟨claim_C1.1 [("title", .str "x")] "ended_at" rfl,
   claim_C1.2.1 [("locked_at", .null)] "locked_at" rfl,
   claim_C1.2.2.2 none banSample banSampleED .null banSampleRecord rfl rfl rfl rfl⟩

/-- C2 counterexample: a payload holding x and y coordinates does not see
them reproduced by the construct-then-serialize cycle; Extension.__init__
never reads the payload coordinates and always stores None, so the x key
present in the input is absent from the output. -/
theorem claim_C2_counterexample :
    (Extension.ofData (.obj [("id", .str "ext1"), ("version", .str "0.3.0"),
        ("active", .bool true), ("x", .num 5), ("y", .num 10)])).map Extension.toDict
      = .ok [("active", .bool true), ("id", .str "ext1"), ("version", .str "0.3.0")]
    ∧ lookupKey [("id", .str "ext1"), ("version", .str "0.3.0"), ("active", .bool true),
        ("x", .num 5), ("y", .num 10)] "x" = some (.num 5)
    ∧ (Extension.ofData (.obj [("id", .str "ext1"), ("version", .str "0.3.0"),
        ("active", .bool true), ("x", .num 5), ("y", .num 10)])).map
          (fun e => lookupKey (Extension.toDict e) "x")
      = .ok none :=
  ⟨rfl, rfl, rfl⟩

/-- C2, amended: id, version and active survive the construct-then-serialize
cycle unchanged, whether or not the payload carries coordinates; x and y
coordinates present in the input payload are dropped by the cycle, because
Extension.__init__ sets both private coordinates to None unconditionally;
coordinates appear in the serialized form only when the record is built
through Extension.new. -/
theorem claim_C2 : ∀ (i v a x y : JVal),
    (Extension.ofData (.obj [("id", i), ("version", v), ("active", a),
        ("x", x), ("y", y)])).map Extension.toDict
      = .ok [("active", a), ("id", i), ("version", v)]
    ∧ (Extension.ofData (.obj [("id", i), ("version", v), ("active", a)])).map Extension.toDict
      = .ok [("active", a), ("id", i), ("version", v)]
    ∧ Extension.toDict (Extension.new a v i (some x) (some y))
      = [("active", a), ("id", i), ("version", v), ("x", x), ("y", y)] :=
  fun _ _ _ _ _ => ⟨rfl, rfl, rfl⟩

/-- C3: for FollowEvent, SubscriptionEvent, BanEvent and Video, a
caller-supplied pre-resolved user entity is stored exactly as given; with no
supplied entity, the reference attribute is the minimal placeholder built
from the inline id and display-name payload fields (for BanEvent, from the
nested event_data object). Construction is a pure computation in this
embedding, so no network call is issued either way. -/
theorem claim_C3 :
    (∀ (fu tu : PartialUser) (d : JVal) (r : FollowEvent),
        FollowEvent.ofData (some fu) (some tu) d = .ok r →
          r.from_user = fu ∧ r.to_user = tu)
    ∧ (∀ (d : JVal) (r : FollowEvent),
        FollowEvent.ofData none none d = .ok r →
          PartialUser.fromFields d "from_id" "from_name" = .ok r.from_user
          ∧ PartialUser.fromFields d "to_id" "to_name" = .ok r.to_user)
    ∧ (∀ (b u : PartialUser) (d : JVal) (r : SubscriptionEvent),
        SubscriptionEvent.ofData (some b) (some u) d = .ok r →
          r.broadcaster = b ∧ r.user = u)
    ∧ (∀ (d : JVal) (r : SubscriptionEvent),
        SubscriptionEvent.ofData none none d = .ok r →
          PartialUser.fromFields d "broadcaster_id" "broadcaster_name" = .ok r.broadcaster
          ∧ PartialUser.fromFields d "user_id" "user_name" = .ok r.user)
    ∧ (∀ (b : PartialUser) (d : JVal) (r : BanEvent),
        BanEvent.ofData (some b) d = .ok r → r.broadcaster = b)
    ∧ (∀ (d ed : JVal) (r : BanEvent),
        BanEvent.ofData none d = .ok r → jget d "event_data" = .ok ed →
          PartialUser.fromFields ed "broadcaster_id" "broadcaster_name" = .ok r.broadcaster)
    ∧ (∀ (u : PartialUser) (d : JVal) (r : Video),
        Video.ofData (some u) d = .ok r → r.user = u)
    ∧ (∀ (d : JVal) (r : Video),
        Video.ofData none d = .ok r →
          PartialUser.fromFields d "user_id" "user_name" = .ok r.user) := by
  refine ⟨?_, ?_, ?_, ?_, ?_, ?_, ?_, ?_⟩
  · intro fu tu d r hok
    unfold FollowEvent.ofData at hok
    simp only [resolveRef, exc_pure, exc_bind_ok] at hok
    obtain ⟨x, h1, hok⟩ := exBind_ok hok
    obtain ⟨fa, h2, hok⟩ := exBind_ok hok
    injection hok with hok
    subst hok
    exact ⟨rfl, rfl⟩
  · intro d r hok
    unfold FollowEvent.ofData at hok
    simp only [resolveRef, exc_pure, exc_bind_ok] at hok
    obtain ⟨fu, h1, hok⟩ := exBind_ok hok
    obtain ⟨tu, h2, hok⟩ := exBind_ok hok
    obtain ⟨x, h3, hok⟩ := exBind_ok hok
    obtain ⟨fa, h4, hok⟩ := exBind_ok hok
    injection hok with hok
    subst hok
    exact ⟨h1, h2⟩
  · intro b u d r hok
    unfold SubscriptionEvent.ofData at hok
    simp only [resolveRef, exc_pure, exc_bind_ok] at hok
    obtain ⟨tv, h1, hok⟩ := exBind_ok hok
    obtain ⟨ti, h2, hok⟩ := exBind_ok hok
    obtain ⟨plan, h3, hok⟩ := exBind_ok hok
    obtain ⟨gift, h4, hok⟩ := exBind_ok hok
    injection hok with hok
    subst hok
    exact ⟨rfl, rfl⟩
  · intro d r hok
    unfold SubscriptionEvent.ofData at hok
    simp only [resolveRef, exc_pure, exc_bind_ok] at hok
    obtain ⟨bu, h1, hok⟩ := exBind_ok hok
    obtain ⟨uu, h2, hok⟩ := exBind_ok hok
    obtain ⟨tv, h3, hok⟩ := exBind_ok hok
    obtain ⟨ti, h4, hok⟩ := exBind_ok hok
    obtain ⟨plan, h5, hok⟩ := exBind_ok hok
    obtain ⟨gift, h6, hok⟩ := exBind_ok hok
    injection hok with hok
    subst hok
    exact ⟨h1, h2⟩
  · intro b d r hok
    unfold BanEvent.ofData at hok
    simp only [resolveRef, exc_pure, exc_bind_ok] at hok
    obtain ⟨id, h1, hok⟩ := exBind_ok hok
    obtain ⟨ty, h2, hok⟩ := exBind_ok hok
    obtain ⟨tsv, h3, hok⟩ := exBind_ok hok
    obtain ⟨ts, h4, hok⟩ := exBind_ok hok
    obtain ⟨verv, h5, hok⟩ := exBind_ok hok
    obtain ⟨ver, h6, hok⟩ := exBind_ok hok
    obtain ⟨ed, h7, hok⟩ := exBind_ok hok
    obtain ⟨reason, h8, hok⟩ := exBind_ok hok
    obtain ⟨uu, h9, hok⟩ := exBind_ok hok
    obtain ⟨mu, h10, hok⟩ := exBind_ok hok
    obtain ⟨ex, h11, hok⟩ := exBind_ok hok
    cases htr : truthy ex with
    | false =>
      rw [htr, if_false_eq_true] at hok
      injection hok with hok
      subst hok
      rfl
    | true =>
      rw [htr, if_true_eq_true] at hok
      obtain ⟨et, h12, hok⟩ := exBind_ok hok
      injection hok with hok
      subst hok
      rfl
  · intro d ed r hok hed
    unfold BanEvent.ofData at hok
    simp only [resolveRef, exc_pure, exc_bind_ok] at hok
    obtain ⟨id, h1, hok⟩ := exBind_ok hok
    obtain ⟨ty, h2, hok⟩ := exBind_ok hok
    obtain ⟨tsv, h3, hok⟩ := exBind_ok hok
    obtain ⟨ts, h4, hok⟩ := exBind_ok hok
    obtain ⟨verv, h5, hok⟩ := exBind_ok hok
    obtain ⟨ver, h6, hok⟩ := exBind_ok hok
    obtain ⟨ed2, h7, hok⟩ := exBind_ok hok
    rw [hed] at h7
    injection h7 with h7
    subst h7
    obtain ⟨reason, h8, hok⟩ := exBind_ok hok
    obtain ⟨bu, h9, hok⟩ := exBind_ok hok
    obtain ⟨uu, h10, hok⟩ := exBind_ok hok
    obtain ⟨mu, h11, hok⟩ := exBind_ok hok
    obtain ⟨ex, h12, hok⟩ := exBind_ok hok
    cases htr : truthy ex with
    | false =>
      rw [htr, if_false_eq_true] at hok
      injection hok with hok
      subst hok
      exact h9
    | true =>
      rw [htr, if_true_eq_true] at hok
      obtain ⟨et, h13, hok⟩ := exBind_ok hok
      injection hok with hok
      subst hok
      exact h9
  · intro u d r hok
    unfold Video.ofData at hok
    simp only [resolveRef, exc_pure, exc_bind_ok] at hok
    obtain ⟨idv, h1, hok⟩ := exBind_ok hok
    obtain ⟨id, h2, hok⟩ := exBind_ok hok
    obtain ⟨title, h3, hok⟩ := exBind_ok hok
    obtain ⟨desc, h4, hok⟩ := exBind_ok hok
    obtain ⟨cav, h5, hok⟩ := exBind_ok hok
    obtain ⟨ca, h6, hok⟩ := exBind_ok hok
    obtain ⟨pav, h7, hok⟩ := exBind_ok hok
    obtain ⟨pa, h8, hok⟩ := exBind_ok hok
    obtain ⟨url, h9, hok⟩ := exBind_ok hok
    obtain ⟨thumb, h10, hok⟩ := exBind_ok hok
    obtain ⟨viewable, h11, hok⟩ := exBind_ok hok
    obtain ⟨vc, h12, hok⟩ := exBind_ok hok
    obtain ⟨lang, h13, hok⟩ := exBind_ok hok
    obtain ⟨ty, h14, hok⟩ := exBind_ok hok
    obtain ⟨dur, h15, hok⟩ := exBind_ok hok
    injection hok with hok
    subst hok
    rfl
  · intro d r hok
    unfold Video.ofData at hok
    simp only [resolveRef, exc_pure, exc_bind_ok] at hok
    obtain ⟨idv, h1, hok⟩ := exBind_ok hok
    obtain ⟨id, h2, hok⟩ := exBind_ok hok
    obtain ⟨uu, h3, hok⟩ := exBind_ok hok
    obtain ⟨title, h4, hok⟩ := exBind_ok hok
    obtain ⟨desc, h5, hok⟩ := exBind_ok hok
    obtain ⟨cav, h6, hok⟩ := exBind_ok hok
    obtain ⟨ca, h7, hok⟩ := exBind_ok hok
    obtain ⟨pav, h8, hok⟩ := exBind_ok hok
    obtain ⟨pa, h9, hok⟩ := exBind_ok hok
    obtain ⟨url, h10, hok⟩ := exBind_ok hok
    obtain ⟨thumb, h11, hok⟩ := exBind_ok hok
    obtain ⟨viewable, h12, hok⟩ := exBind_ok hok
    obtain ⟨vc, h13, hok⟩ := exBind_ok hok
    obtain ⟨lang, h14, hok⟩ := exBind_ok hok
    obtain ⟨ty, h15, hok⟩ := exBind_ok hok
    obtain ⟨dur, h16, hok⟩ := exBind_ok hok
    injection hok with hok
    subst hok
    exact h3

/-- C3 witness: every conjunct of the theorem applied to the sample payloads,
once with caller-supplied resolved entities and once without. -/
theorem claim_C3_witness :
    ((FollowEvent.mk pu1 pu2 sampleDT).from_user = pu1
      ∧ (FollowEvent.mk pu1 pu2 sampleDT).to_user = pu2)
    ∧ (PartialUser.fromFields followSample "from_id" "from_name" = .ok followSampleRecord.from_user
      ∧ PartialUser.fromFields followSample "to_id" "to_name" = .ok followSampleRecord.to_user)
    ∧ ((SubscriptionEvent.mk pu1 pu2 1 (.str "Channel Subscription") (.bool false)).broadcaster = pu1
      ∧ (SubscriptionEvent.mk pu1 pu2 1 (.str "Channel Subscription") (.bool false)).user = pu2)
    ∧ (PartialUser.fromFields subSample "broadcaster_id" "broadcaster_name" = .ok subSampleRecord.broadcaster
      ∧ PartialUser.fromFields subSample "user_id" "user_name" = .ok subSampleRecord.user)
    ∧ banSampleRecordSupplied.broadcaster = pu1
    ∧ PartialUser.fromFields banSampleED "broadcaster_id" "broadcaster_name" = .ok banSampleRecord.broadcaster
    ∧ videoSampleRecordSupplied.user = pu1
    ∧ PartialUser.fromFields videoSample "user_id" "user_name" = .ok videoSampleRecord.user :=
  ⟨claim_C3.1 pu1 pu2 followSample (FollowEvent.mk pu1 pu2 sampleDT) rfl,
   claim_C3.2.1 followSample followSampleRecord rfl,
   claim_C3.2.2.1 pu1 pu2 subSample
     (SubscriptionEvent.mk pu1 pu2 1 (.str "Channel Subscription") (.bool false)) rfl,
   claim_C3.2.2.2.1 subSample subSampleRecord rfl,
   claim_C3.2.2.2.2.1 pu1 banSample banSampleRecordSupplied rfl,
   claim_C3.2.2.2.2.2.1 banSample banSampleED banSampleRecord rfl rfl,
   claim_C3.2.2.2.2.2.2.1 pu1 videoSample videoSampleRecordSupplied rfl,
   claim_C3.2.2.2.2.2.2.2 videoSample videoSampleRecord rfl⟩

/-- C4: a Marker payload holding exactly the guaranteed fields (no URL key)
constructs successfully with an absent url attribute, and a BanEvent payload
holding all guaranteed fields with a null expires_at value constructs
successfully with an absent expires_at attribute; the absent value is None,
not an empty string or zero. -/
theorem claim_C4 :
    (∀ (idv desc pos : JVal) (ts : String) (t : PyDateTime),
      parse_timestamp (.str ts) = .ok t →
      Marker.ofData (.obj [("id", idv), ("created_at", .str ts),
          ("description", desc), ("position_seconds", pos)])
        = .ok ⟨idv, t, desc, pos, none⟩)
    ∧ (∀ (idv tyv rv bn un mn : JVal) (ts : String) (vern bi ui mi : Int) (t : PyDateTime),
      parse_timestamp (.str ts) = .ok t →
      BanEvent.ofData none (.obj
        [("id", idv), ("event_type", tyv), ("event_timestamp", .str ts),
         ("version", .num vern),
         ("event_data", .obj
           [("reason", rv), ("broadcaster_id", .num bi), ("broadcaster_name", bn),
            ("user_id", .num ui), ("user_name", un), ("moderator_id", .num mi),
            ("moderator_name", mn), ("expires_at", .null)])])
        = .ok ⟨idv, tyv, t, (vern : ℚ), rv, ⟨bi, bn⟩, ⟨ui, un⟩, ⟨mi, mn⟩, none⟩) := by
  constructor
  · intro idv desc pos ts t hts
    unfold Marker.ofData
    simp only [jget, lookupKey, dictGet, exc_pure, exc_bind_ok, hts,
      String.reduceEq, reduceIte]
  · intro idv tyv rv bn un mn ts vern bi ui mi t hts
    unfold BanEvent.ofData
    simp only [jget, lookupKey, pyFloat, pyInt, PartialUser.fromFields, PartialUser.ofRaw,
      resolveRef, truthy, exc_pure, exc_bind_ok, hts, String.reduceEq, reduceIte,
      if_false_eq_true, if_true_eq_true]

/-- C4 witness: the theorem applied to the sample marker and ban-event
payloads. -/
theorem claim_C4_witness :
    Marker.ofData markerSample = .ok markerSampleRecord
    ∧ BanEvent.ofData none banSample = .ok banSampleRecord :=
  ⟨claim_C4.1 (.str "m1") (.str "desc") (.num 5) "2021-05-01T12:00:00Z" sampleDT rfl,
   claim_C4.2 (.str "e1") (.str "moderation.user.ban") (.str "spam") (.str "b")
     (.str "u") (.str "m") "2021-05-01T12:00:00Z" 1 10 20 30 sampleDT rfl⟩

/-- C5: removing any single guaranteed field from a well-formed Clip or
Stream payload makes construction fail with the KeyError naming exactly that
field, while the full payloads construct successfully; the error is the
result itself, so no partial record is returned and nothing is defaulted. -/
theorem claim_C5 :
    (∀ f ∈ clipRequiredKeys, Clip.ofData (removeKey clipSample f) = .error (.keyError f))
    ∧ (∀ f ∈ streamRequiredKeys, Stream.ofData (removeKey streamSample f) = .error (.keyError f))
    ∧ (∃ c, Clip.ofData clipSample = .ok c)
    ∧ (∃ s, Stream.ofData streamSample = .ok s) := by
  refine ⟨?_, ?_, ⟨_, rfl⟩, ⟨_, rfl⟩⟩
  all_goals intro f hf
  all_goals fin_cases hf <;> rfl

/-- C5 witness: the theorem applied to one missing field of each record
type. -/
theorem claim_C5_witness :
    Clip.ofData (removeKey clipSample "id") = .error (.keyError "id")
    ∧ Stream.ofData (removeKey streamSample "started_at") = .error (.keyError "started_at") :=
  ⟨claim_C5.1 "id" (by decide), claim_C5.2.1 "started_at" (by decide)⟩

/-- C6: for every subscription-event payload whose tier value converts to
the integer 1000, 2000 or 3000, the constructed tier attribute is 1, 2 or 3
respectively, obtained as the half-to-even rounding of the exact division of
the transmitted integer by 1000. -/
theorem claim_C6 :
    ∀ (b u : Option PartialUser) (d : JVal) (r : SubscriptionEvent) (v : JVal),
      SubscriptionEvent.ofData b u d = .ok r → jget d "tier" = .ok v →
      ((pyInt v = .ok 1000 → r.tier = 1)
        ∧ (pyInt v = .ok 2000 → r.tier = 2)
        ∧ (pyInt v = .ok 3000 → r.tier = 3)) := by
  intro b u d r v hok hv
  unfold SubscriptionEvent.ofData at hok
  simp only [exc_pure, exc_bind_ok] at hok
  obtain ⟨bu, hbu, hok⟩ := exBind_ok hok
  obtain ⟨uu, huu, hok⟩ := exBind_ok hok
  obtain ⟨tv, htv, hok⟩ := exBind_ok hok
  obtain ⟨ti, hti, hok⟩ := exBind_ok hok
  obtain ⟨plan, hplan, hok⟩ := exBind_ok hok
  obtain ⟨gift, hgift, hok⟩ := exBind_ok hok
  injection hok with hok
  subst hok
  rw [hv] at htv
  injection htv with htv
  subst htv
  refine ⟨?_, ?_, ?_⟩ <;> intro h <;> rw [h] at hti <;> injection hti with hti <;>
    subst hti <;> rfl

/-- C6 witness: the theorem applied to the sample subscription payload with
tier 1000. -/
theorem claim_C6_witness : subSampleRecord.tier = 1 :=
  (claim_C6 none none subSample subSampleRecord (.str "1000") rfl rfl).1 rfl

/-- C7: the flattened extension-builder payload keys each sequence by the
decimal string of each element position in insertion order; with two panels,
one overlay and no components the panel map has exactly the keys 0 and 1 in
that order, the overlay map exactly the key 0, and the component map is
empty. -/
theorem claim_C7 :
    (∀ ps os cs : List Extension,
      (ExtensionBuilder.toDict ⟨ps, os, cs⟩).map (fun e => (e.1, e.2.map Prod.fst))
        = [("panel", (List.range ps.length).map toString),
           ("overlay", (List.range os.length).map toString),
           ("component", (List.range cs.length).map toString)])
    ∧ (∀ ps os cs : List Extension, ps.length = 2 → os.length = 1 → cs.length = 0 →
      (ExtensionBuilder.toDict ⟨ps, os, cs⟩).map (fun e => (e.1, e.2.map Prod.fst))
        = [("panel", ["0", "1"]), ("overlay", ["0"]), ("component", [])]) := by
  refine ⟨builderKeys, ?_⟩
  intro ps os cs h1 h2 h3
  rw [builderKeys ps os cs, h1, h2, h3]
  rfl

/-- C7 witness: the theorem applied to a builder holding two panels, one
overlay and no components. -/
theorem claim_C7_witness :
    (ExtensionBuilder.toDict ⟨[extSample, extSample], [extSample], []⟩).map
        (fun e => (e.1, e.2.map Prod.fst))
      = [("panel", ["0", "1"]), ("overlay", ["0"]), ("component", [])] :=
  claim_C7.2 [extSample, extSample] [extSample] [] rfl rfl rfl

/-- C8: a schedule payload with two segments, the first with a populated
category object and the second with a null category, constructs to a
schedule whose segments keep payload order, whose first segment carries a
category record with exactly the payload id and name, and whose second
segment has an absent category. -/
theorem claim_C8 :
    ∀ (sid1 sid2 t1 t2 cid cname bname rec1 rec2 : JVal) (bi : Int),
      Schedule.ofData (.obj [("data", .obj [
        ("segments", .arr [
          .obj [("id", sid1), ("start_time", .str "2021-05-01T10:00:00Z"),
            ("end_time", .str "2021-05-01T11:00:00Z"), ("title", t1),
            ("canceled_until", .null), ("category", .obj [("id", cid), ("name", cname)]),
            ("is_recurring", rec1)],
          .obj [("id", sid2), ("start_time", .str "2021-05-02T10:00:00Z"),
            ("end_time", .str "2021-05-02T11:00:00Z"), ("title", t2),
            ("canceled_until", .null), ("category", .null), ("is_recurring", rec2)]]),
        ("broadcaster_id", .num bi),
        ("broadcaster_login", bname),
        ("vacation", .null)])])
      = .ok ⟨[⟨sid1, ⟨2021, 5, 1, 10, 0, 0, 0, none⟩, ⟨2021, 5, 1, 11, 0, 0, 0, none⟩, t1,
                none, some ⟨cid, cname⟩, rec1⟩,
              ⟨sid2, ⟨2021, 5, 2, 10, 0, 0, 0, none⟩, ⟨2021, 5, 2, 11, 0, 0, 0, none⟩, t2,
                none, none, rec2⟩],
             ⟨bi, bname⟩, none⟩ :=
  fun _ _ _ _ _ _ _ _ _ _ => rfl

/-- C9: the outbound serialization of an automod check message has exactly
the keys msg_id, msg_text and user_id, and the user_id value is the decimal
string of the stored user id, whether the message was constructed from a
user record (whose id is taken) or from a bare integer id. -/
theorem claim_C9 :
    ∀ (id text : String) (u : UserOrInt),
      AutomodCheckMessage.toDict (AutomodCheckMessage.make id text u)
        = [("msg_id", .str id), ("msg_text", .str text),
           ("user_id", .str (toString (match u with | .user p => p.id | .int i => i)))] := by
  intro id text u
  cases u <;> rfl

/-- C10: the null and empty top_predictors values both yield an absent
attribute, never an empty list; but a payload with a non-empty
top_predictors list never yields a record at all, because Predictor.__init__
assigns attributes that its own __slots__ does not declare and CPython
raises AttributeError on the first such assignment. The claim that a
non-empty value yields a list of predictor records of the same length is
what the docstrings promise and the code cannot deliver. -/
theorem claim_C10 :
    PredictionOutcome.ofData outcomeSampleFilled = .error (.attributeError "channel_points_used")
    ∧ PredictionOutcome.ofData outcomeSampleNull
        = .ok ⟨.str "o1", .str "yes", .num 10, .str "BLUE", .num 3, none⟩
    ∧ PredictionOutcome.ofData outcomeSampleEmpty
        = .ok ⟨.str "o1", .str "yes", .num 10, .str "BLUE", .num 3, none⟩ :=
  ⟨rfl, rfl, rfl⟩

end Twitchio
